import Mathlib

/-!
Shallow embedding of the tool-registration / action-logging core of
`src/agents/shared/base_agent.py` (and `src/agents/tools/adk_adapter.py`)
from the blabout monorepo, together with theorems checking the
natural-language specification against these definitions.

Modelling conventions:
* Python runtime values that flow through the core are embedded as `PyVal`
  (strings, ints, bools, `None`, lists, dicts). String-valued enums
  (`Status`, `MessageType`, `Priority`) are `str`-mixin enums in the source,
  so their members are carried as their string values where they live in
  dynamic positions (the `status` field), and as Lean inductives where the
  source types them statically (`Message` fields).
* Fallible Python code is embedded with `Except String`; an exception raised
  by the wrapped callable is an `Except.error`.
* The append-only action-log file is an explicit `List String` threaded
  through the wrapper; a filesystem failure of the append step is modelled by
  the `appendFails` flag of the logging environment.
* `uuid.uuid4()` is an opaque source of fresh unique identifiers; it is
  modelled as an injective rendering of a draw counter carried by `World`.
-/

/-- Embedded Python runtime values passed through the agent core. -/
inductive PyVal where
  | str (s : String)
  | int (n : Int)
  | bool (b : Bool)
  | none
  | list (xs : List PyVal)
  | dict (entries : List (String × PyVal))

/-- Python `type(v).__name__` for an embedded value. -/
def PyVal.typeName : PyVal → String
  | .str _ => "str"
  | .int _ => "int"
  | .bool _ => "bool"
  | .none => "NoneType"
  | .list _ => "list"
  | .dict _ => "dict"

mutual

/-- Python `repr` of an embedded value (`str()` of a tuple calls `repr`
on the elements). -/
def PyVal.pyRepr : PyVal → String
  | .str s => "\x27" ++ s ++ "\x27"
  | .int n => toString n
  | .bool b => if b then "True" else "False"
  | .none => "None"
  | .list xs => "[" ++ pyReprSeq xs ++ "]"
  | .dict es => "\x7b" ++ pyReprEntries es ++ "\x7d"

/-- Comma-separated `repr`s of a sequence of values. -/
def pyReprSeq : List PyVal → String
  | [] => ""
  | [x] => PyVal.pyRepr x
  | x :: y :: xs => PyVal.pyRepr x ++ ", " ++ pyReprSeq (y :: xs)

/-- Comma-separated `repr`s of the entries of a dict. -/
def pyReprEntries : List (String × PyVal) → String
  | [] => ""
  | [(k, v)] => "\x27" ++ k ++ "\x27: " ++ PyVal.pyRepr v
  | (k, v) :: e :: es =>
      "\x27" ++ k ++ "\x27: " ++ PyVal.pyRepr v ++ ", " ++ pyReprEntries (e :: es)

end

/-- Python `str(args)` for the tuple of positional arguments. -/
def pyTupleRepr (args : List PyVal) : String :=
  match args with
  | [] => "()"
  | [a] => "(" ++ a.pyRepr ++ ",)"
  | _ => "(" ++ String.intercalate ", " (args.map PyVal.pyRepr) ++ ")"

/-- Python slicing `s[:n]`: the first `n` characters of a string. -/
def pyTruncate (s : String) (n : Nat) : String := String.mk (s.data.take n)

/-- Embedding of `AgentState` (a Pydantic model).  Field values are dynamic:
Pydantic's `model_copy(update=...)` performs no validation, so after an
update a field can carry any runtime value, which is why the fields are
`PyVal` rather than the declared (validated-at-construction) types. -/
structure AgentState where
  status : PyVal
  current_task : PyVal
  resource_utilization : PyVal
  dependencies : PyVal
  performance_metrics : PyVal

/-- The default `AgentState()`: `status=idle` (a `str`-enum whose value is
`"idle"`), no current task, empty metric dicts, empty dependency list. -/
def AgentState.default : AgentState :=
  { status := .str "idle"
    current_task := .none
    resource_utilization := .dict []
    dependencies := .list []
    performance_metrics := .dict [] }

/-- The five declared `Status` enum values. -/
def statusValues : List String := ["active", "idle", "busy", "error", "maintenance"]

/-- Whether a runtime value is one of the five declared `Status` members. -/
def isStatusVal (v : PyVal) : Bool :=
  match v with
  | .str s => statusValues.contains s
  | _ => false

/-- Embedding of Pydantic `model_copy(update=kwargs)`: a fresh record whose
fields are taken from `update` when the field name is a key there and from
the receiver otherwise.  No validation is performed (Pydantic documents
`model_copy` as non-validating). -/
def AgentState.model_copy (s : AgentState) (update : List (String × PyVal)) : AgentState :=
  { status := (update.lookup "status").getD s.status
    current_task := (update.lookup "current_task").getD s.current_task
    resource_utilization := (update.lookup "resource_utilization").getD s.resource_utilization
    dependencies := (update.lookup "dependencies").getD s.dependencies
    performance_metrics := (update.lookup "performance_metrics").getD s.performance_metrics }

/-- Embedding of `UniversalAgent` (pure view: the `state` attribute holds the
current `AgentState` value). -/
structure UniversalAgent where
  agent_id : String
  role : String
  model : String
  state : AgentState

/-- `UniversalAgent.__init__`: the model falls back to the environment value
(`os.getenv("AGENT_MODEL", "gemini-2.0-flash")`) when the supplied model
string is falsy (empty), and the state starts as the default `AgentState()`. -/
def mkUniversalAgent (agent_id role model : String) (envModel : Option String) :
    UniversalAgent :=
  { agent_id := agent_id
    role := role
    model := if model = "" then envModel.getD "gemini-2.0-flash" else model
    state := AgentState.default }

/-- `update_state(**kwargs)`: `updated = self.state.model_copy(update=kwargs);
self.state = updated; return self.state`.  Returns the agent with the new
state installed together with the returned state value. -/
def UniversalAgent.update_state (a : UniversalAgent) (kwargs : List (String × PyVal)) :
    UniversalAgent × AgentState :=
  let updated := a.state.model_copy kwargs
  ({ a with state := updated }, updated)

/-- `get_state()`: `self.state.model_dump()` — a plain snapshot of the current
state as a field-name-to-value mapping. -/
def UniversalAgent.get_state (a : UniversalAgent) : List (String × PyVal) :=
  [("status", a.state.status),
   ("current_task", a.state.current_task),
   ("resource_utilization", a.state.resource_utilization),
   ("dependencies", a.state.dependencies),
   ("performance_metrics", a.state.performance_metrics)]

/-- The declared field names of `AgentState`. -/
def stateFieldNames : List String :=
  ["status", "current_task", "resource_utilization", "dependencies", "performance_metrics"]

/-- One pair of a JSON object rendered the way `json.dumps` renders a
string-to-string mapping (without escape-requiring characters). -/
def jsonStrPair (p : String × String) : String :=
  "\"" ++ p.1 ++ "\": \"" ++ p.2 ++ "\""

/-- `json.dumps` of a string-to-string mapping, with its default
`", "` and `": "` separators. -/
def renderStrPairs (ps : List (String × String)) : String :=
  "\x7b" ++ String.intercalate ", " (ps.map jsonStrPair) ++ "\x7d"

/-- `json.dumps({k: type(v).__name__ for k, v in kwargs.items()})`: the
kwargs component of the action-log line maps each keyword-argument name to
its runtime type name, never to its value. -/
def kwargsTypesJson (kwargs : List (String × PyVal)) : String :=
  renderStrPairs (kwargs.map (fun p => (p.1, p.2.typeName)))

/-- The action-log line written by the `@tool` wrapper:
`- {utcnow} | {agent_id}.{func_name}: {"args": "{str(args)[:120]}",
"kwargs": {json.dumps({k: type(v).__name__})}}`. -/
def actionLogLine (timestamp agentId toolName : String) (args : List PyVal)
    (kwargs : List (String × PyVal)) : String :=
  "- " ++ timestamp ++ " | " ++ agentId ++ "." ++ toolName ++ ": \x7b\"args\": \"" ++
    pyTruncate (pyTupleRepr args) 120 ++ "\", \"kwargs\": " ++ kwargsTypesJson kwargs ++ "\x7d"

/-- Environment of one wrapped invocation: the current UTC timestamp and
whether the filesystem append of the action-log line fails (raising inside
the `try` block of the wrapper). -/
structure LogEnv where
  now : String
  appendFails : Bool

/-- The wrapper installed by the `@tool` decorator.  The wrapped callable
`func` receives the agent (`self`), positional args and kwargs, and either
raises (`Except.error`) or returns a result together with the possibly
mutated `self`.  The wrapper first runs `func`; if it raises, the exception
propagates and the log is untouched.  On success it appends one action-log
line inside a `try`/`except Exception: pass` block — an append failure is
swallowed — and returns the result unchanged. -/
def toolWrapper (toolName : String)
    (func : UniversalAgent → List PyVal → List (String × PyVal) →
      Except String (PyVal × UniversalAgent))
    (env : LogEnv) (self : UniversalAgent) (args : List PyVal)
    (kwargs : List (String × PyVal)) (log : List String) :
    Except String (PyVal × UniversalAgent) × List String :=
  match func self args kwargs with
  | .error e => (.error e, log)
  | .ok res =>
      if env.appendFails then (.ok res, log)
      else (.ok res, log ++ [actionLogLine env.now res.2.agent_id toolName args kwargs])

/-- A member (attribute) of an agent object as seen by reflection: its name,
whether `callable(...)` holds for it, and whether it carries the
`__is_tool__` flag set by the `@tool` decorator. -/
structure Member where
  name : String
  callable : Bool
  isTool : Bool

/-- An agent variant's attribute table, in class declaration order. -/
structure AgentClassDecl where
  members : List Member

/-- Python's string comparison on code points: lexicographic order on the
character sequences, a strict prefix coming first. -/
def lexLe : List Char → List Char → Bool
  | [], _ => true
  | _ :: _, [] => false
  | a :: as, b :: bs =>
      if a.toNat < b.toNat then true
      else if b.toNat < a.toNat then false
      else lexLe as bs

/-- Boolean `≤` on strings, as Python compares and sorts them. -/
def strLe (a b : String) : Bool := lexLe a.data b.data

/-- Insert a member into a name-sorted list of members. -/
def insertSorted (m : Member) : List Member → List Member
  | [] => [m]
  | x :: xs => if strLe m.name x.name then m :: x :: xs else x :: insertSorted m xs

/-- Sort members by name: `dir()` returns the attribute names sorted. -/
def sortMembers : List Member → List Member
  | [] => []
  | x :: xs => insertSorted x (sortMembers xs)

/-- Python `s.startswith("_")`. -/
def startsWithUnderscore (s : String) : Bool :=
  match s.data with
  | [] => false
  | c :: _ => c = '_'

/-- Embedding of `UniversalAgent.tool_methods` (and of the identical
`collect_tools` in `adk_adapter.py`): iterate over `dir(self)` (the sorted
attribute names), skip names starting with `_`, and keep the attributes that
are callable and carry the `__is_tool__` flag. -/
def tool_methods (c : AgentClassDecl) : List Member :=
  (sortMembers c.members).filter
    (fun m => (!startsWithUnderscore m.name) && m.callable && m.isTool)

/-- The tool-marked public members in class declaration order (what the spec
calls "insertion/declaration order of the variant's class"). -/
def declaredToolMembers (c : AgentClassDecl) : List Member :=
  c.members.filter (fun m => (!startsWithUnderscore m.name) && m.callable && m.isTool)

/-- Attribute table of the `UniversalAgent` base itself: instance attributes,
the base methods (callable, none tool-marked), and the dunder entries that
reflection also reports (underscore-prefixed). -/
def universalAgentMembers : List Member :=
  [⟨"__init__", true, false⟩,
   ⟨"tool_methods", true, false⟩,
   ⟨"send_message", true, false⟩,
   ⟨"update_state", true, false⟩,
   ⟨"get_state", true, false⟩,
   ⟨"as_adk_agent", true, false⟩,
   ⟨"agent_id", false, false⟩,
   ⟨"role", false, false⟩,
   ⟨"model", false, false⟩,
   ⟨"state", false, false⟩,
   ⟨"logger", false, false⟩]

/-- The `UniversalAgent` base class as an attribute table: it has zero
tool-marked methods. -/
def universalAgentClass : AgentClassDecl := ⟨universalAgentMembers⟩

/-- Attribute table of `DocumentationAgent`
(`src/agents/tools/documentation_agent.py`): its four `@tool` methods in
class declaration order, then the inherited base members. -/
def documentationAgentClass : AgentClassDecl :=
  ⟨⟨"generate_agents_overview", true, true⟩ ::
   ⟨"summarize_action_logs", true, true⟩ ::
   ⟨"get_gcp_api_documentation_info", true, true⟩ ::
   ⟨"generate_comprehensive_overview", true, true⟩ :: universalAgentMembers⟩

/-- A store of heap-allocated `AgentState` objects, for reasoning about
object identity and aliasing: Python's `model_copy` allocates a fresh object
and `self.state = updated` only repoints the attribute, so a reader holding a
reference to the prior object must still see its old contents. -/
structure StateStore where
  mem : Nat → Option AgentState
  next : Nat

/-- Well-formedness of a store: addresses at or above the allocation cursor
are unallocated. -/
def StateStore.WF (st : StateStore) : Prop :=
  ∀ r, st.next ≤ r → st.mem r = Option.none

/-- Allocate a fresh `AgentState` object, returning its address. -/
def StateStore.alloc (st : StateStore) (v : AgentState) : Nat × StateStore :=
  (st.next, ⟨fun r => if r = st.next then some v else st.mem r, st.next + 1⟩)

/-- Heap view of an agent: the `state` attribute is a reference into the
store. -/
structure AgentH where
  agent_id : String
  stateRef : Nat

/-- Heap-level embedding of `update_state`: read the current state object,
build the updated copy with `model_copy` (a fresh allocation), and repoint
`self.state` at the fresh object.  The prior object is never written. -/
def update_stateH (a : AgentH) (st : StateStore) (kwargs : List (String × PyVal)) :
    AgentH × StateStore :=
  match st.mem a.stateRef with
  | some cur =>
      let updated := cur.model_copy kwargs
      let alloced := st.alloc updated
      ({ a with stateRef := alloced.1 }, alloced.2)
  | none => (a, st)

/-- `MessageType` enum. -/
inductive MessageType where
  | request
  | response
  | notification
  | error

/-- `Priority` enum. -/
inductive Priority where
  | critical
  | high
  | medium
  | low

/-- Embedding of the Pydantic `Message` model. -/
structure Message where
  message_id : String
  sender : String
  recipient : String
  message_type : MessageType
  priority : Priority
  payload : List (String × PyVal)
  timestamp : String
  requires_response : Bool
  deadline : Option String

/-- One informational log record emitted by `send_message`
(`logger.info("send_message | recipient=... | type=... | priority=... |
payload=...")`). -/
structure InfoEntry where
  recipient : String
  message_type : MessageType
  priority : Priority
  payload : List (String × PyVal)

/-- Ambient process state for `send_message`: the draw counter of the
fresh-identifier source (`uuid.uuid4()`) and the informational log. -/
structure World where
  uuidCounter : Nat
  infoLog : List InfoEntry

/-- The identifier produced by the `n`-th draw of the fresh-identifier
source.  `uuid.uuid4()` yields an opaque fresh string; it is modelled as the
decimal rendering of the draw counter behind a fixed prefix, which is
injective and never empty. -/
def uuidString (n : Nat) : String :=
  String.mk ("uuid-".data ++ ((Nat.digits 10 n).map Nat.digitChar).reverse)

/-- Embedding of `UniversalAgent.send_message`: construct a `Message` from a
fresh identifier, the agent's id as sender, the supplied arguments and the
current UTC timestamp; append one informational log entry; return the
message.  Nothing is transported and the agent is not modified (it is
returned untouched). -/
def send_message (a : UniversalAgent) (w : World) (now : String) (recipient : String)
    (message_type : MessageType) (payload : List (String × PyVal))
    (priority : Priority) (requires_response : Bool) (deadline : Option String) :
    Message × World × UniversalAgent :=
  let msg : Message :=
    { message_id := uuidString w.uuidCounter
      sender := a.agent_id
      recipient := recipient
      message_type := message_type
      priority := priority
      payload := payload
      timestamp := now
      requires_response := requires_response
      deadline := deadline }
  (msg,
   { uuidCounter := w.uuidCounter + 1
     infoLog := w.infoLog ++ [⟨recipient, message_type, priority, payload⟩] },
   a)

/-- `send_message` with its declared Python defaults:
`priority=Priority.medium, requires_response=False, deadline=None`. -/
def send_message_default (a : UniversalAgent) (w : World) (now : String)
    (recipient : String) (message_type : MessageType)
    (payload : List (String × PyVal)) : Message × World × UniversalAgent :=
  send_message a w now recipient message_type payload Priority.medium false Option.none

/-! ### Helper lemmas -/

theorem lexLe_total (as : List Char) : ∀ bs, lexLe as bs = true ∨ lexLe bs as = true := by
  induction as with
  | nil => intro bs; left; rfl
  | cons a as ih =>
    intro bs
    cases bs with
    | nil => right; rfl
    | cons b bs =>
      by_cases hab : a.toNat < b.toNat
      · left; simp [lexLe, hab]
      · by_cases hba : b.toNat < a.toNat
        · right; simp [lexLe, hba]
        · rcases ih bs with h | h
          · left; simp [lexLe, hab, hba, h]
          · right; simp [lexLe, hab, hba, h]

theorem lexLe_trans (as : List Char) :
    ∀ bs cs, lexLe as bs = true → lexLe bs cs = true → lexLe as cs = true := by
  induction as with
  | nil => intro bs cs _ _; rfl
  | cons a as ih =>
    intro bs cs h1 h2
    cases bs with
    | nil => simp [lexLe] at h1
    | cons b bs =>
      cases cs with
      | nil => simp [lexLe] at h2
      | cons c cs =>
        simp only [lexLe] at h1 h2 ⊢
        by_cases hab : a.toNat < b.toNat
        · by_cases hbc : b.toNat < c.toNat
          · simp [show a.toNat < c.toNat by omega]
          · simp only [hbc, if_false] at h2
            by_cases hcb : c.toNat < b.toNat
            · simp [hcb] at h2
            · simp [show a.toNat < c.toNat by omega]
        · simp only [hab, if_false] at h1
          by_cases hba : b.toNat < a.toNat
          · simp [hba] at h1
          · have hEq : a.toNat = b.toNat := by omega
            by_cases hbc : b.toNat < c.toNat
            · simp [show a.toNat < c.toNat by omega]
            · simp only [hbc, if_false] at h2
              by_cases hcb : c.toNat < b.toNat
              · simp [hcb] at h2
              · simp only [hcb, if_false] at h2
                simp only [hba, if_false] at h1
                simp [show ¬ a.toNat < c.toNat by omega, show ¬ c.toNat < a.toNat by omega,
                  ih bs cs h1 h2]

theorem strLe_total (a b : String) : strLe a b = true ∨ strLe b a = true :=
  lexLe_total a.data b.data

theorem strLe_trans {a b c : String} (h1 : strLe a b = true) (h2 : strLe b c = true) :
    strLe a c = true :=
  lexLe_trans a.data b.data c.data h1 h2

theorem mem_insertSorted (m y : Member) (l : List Member) :
    y ∈ insertSorted m l ↔ y = m ∨ y ∈ l := by
  induction l with
  | nil => simp [insertSorted]
  | cons x xs ih =>
    simp only [insertSorted]
    cases hc : strLe m.name x.name
    · simp only [hc, Bool.false_eq_true, if_false, List.mem_cons, ih]
      tauto
    · simp only [hc, if_true, List.mem_cons]

theorem mem_sortMembers (y : Member) (l : List Member) :
    y ∈ sortMembers l ↔ y ∈ l := by
  induction l with
  | nil => simp [sortMembers]
  | cons x xs ih =>
    simp [sortMembers, mem_insertSorted, ih]

theorem pairwise_insertSorted (m : Member) (l : List Member)
    (h : l.Pairwise (fun x y => strLe x.name y.name = true)) :
    (insertSorted m l).Pairwise (fun x y => strLe x.name y.name = true) := by
  induction l with
  | nil => simp [insertSorted]
  | cons x xs ih =>
    simp only [insertSorted]
    rcases List.pairwise_cons.mp h with ⟨hx, hxs⟩
    by_cases hmx : strLe m.name x.name = true
    · simp only [hmx, if_true]
      refine List.pairwise_cons.mpr ⟨?_, h⟩
      intro z hz
      rcases List.mem_cons.mp hz with rfl | hz'
      · exact hmx
      · exact strLe_trans hmx (hx z hz')
    · simp only [hmx, if_false]
      refine List.pairwise_cons.mpr ⟨?_, ih hxs⟩
      intro z hz
      rcases (mem_insertSorted m z xs).mp hz with hzm | hz'
      · rw [hzm]
        rcases strLe_total m.name x.name with h' | h'
        · exact absurd h' hmx
        · exact h'
      · exact hx z hz'

theorem pairwise_sortMembers (l : List Member) :
    (sortMembers l).Pairwise (fun x y => strLe x.name y.name = true) := by
  induction l with
  | nil => simp [sortMembers]
  | cons x xs ih => exact pairwise_insertSorted x (sortMembers xs) ih

theorem digitChar_inj_below_ten :
    ∀ a < 10, ∀ b < 10, Nat.digitChar a = Nat.digitChar b → a = b := by decide

theorem map_digitChar_inj :
    ∀ l1 l2 : List Nat, (∀ x ∈ l1, x < 10) → (∀ x ∈ l2, x < 10) →
      l1.map Nat.digitChar = l2.map Nat.digitChar → l1 = l2 := by
  intro l1
  induction l1 with
  | nil =>
    intro l2 _ _ h
    cases l2 with
    | nil => rfl
    | cons b bs => simp at h
  | cons a as ih =>
    intro l2 h1 h2 h
    cases l2 with
    | nil => simp at h
    | cons b bs =>
      simp only [List.map_cons, List.cons.injEq] at h
      have ha : a < 10 := h1 a (List.mem_cons_self a as)
      have hb : b < 10 := h2 b (List.mem_cons_self b bs)
      have hab : a = b := digitChar_inj_below_ten a ha b hb h.1
      have htl : as = bs :=
        ih bs (fun x hx => h1 x (List.mem_cons_of_mem a hx))
          (fun x hx => h2 x (List.mem_cons_of_mem b hx)) h.2
      rw [hab, htl]

theorem uuidString_injective : Function.Injective uuidString := by
  intro m n h
  have h1 := congrArg String.data h
  simp only [uuidString] at h1
  have h2 := List.append_cancel_left h1
  have h3 := List.reverse_injective h2
  have h4 : Nat.digits 10 m = Nat.digits 10 n :=
    map_digitChar_inj _ _
      (fun d hd => Nat.digits_lt_base (by norm_num) hd)
      (fun d hd => Nat.digits_lt_base (by norm_num) hd) h3
  exact Nat.digits.injective 10 h4

theorem uuidString_ne_empty (n : Nat) : uuidString n ≠ "" := by
  intro h
  have h1 := congrArg String.data h
  simp [uuidString] at h1

theorem kwargs_types_map_eq :
    ∀ l1 l2 : List (String × PyVal),
      l1.map Prod.fst = l2.map Prod.fst →
      l1.map (fun p => p.2.typeName) = l2.map (fun p => p.2.typeName) →
      l1.map (fun p => (p.1, p.2.typeName)) = l2.map (fun p => (p.1, p.2.typeName)) := by
  intro l1
  induction l1 with
  | nil =>
    intro l2 h1 _
    cases l2 with
    | nil => rfl
    | cons b bs => simp at h1
  | cons a as ih =>
    intro l2 h1 h2
    cases l2 with
    | nil => simp at h1
    | cons b bs =>
      simp only [List.map_cons, List.cons.injEq] at h1 h2 ⊢
      exact ⟨by rw [h1.1, h2.1], ih bs h1.2 h2.2⟩

/-! ### Demonstration objects used by the witnesses -/

/-- A concretely constructed agent (`id="demo-1"`, `role="Test role"`,
`model="model-x"`, no environment fallback needed). -/
def demoAgent : UniversalAgent := mkUniversalAgent "demo-1" "Test role" "model-x" Option.none

/-- A domain tool body that succeeds, returning `{"status": "ok"}` and
leaving the agent untouched. -/
def demoOkFunc (self : UniversalAgent) (_ : List PyVal) (_ : List (String × PyVal)) :
    Except String (PyVal × UniversalAgent) :=
  .ok (.dict [("status", .str "ok")], self)

/-- A domain tool body that raises (`Except.error`). -/
def demoRaisingFunc (_ : UniversalAgent) (_ : List PyVal) (_ : List (String × PyVal)) :
    Except String (PyVal × UniversalAgent) :=
  .error "invalid input"

/-- A sample store holding one allocated state object at address 0. -/
def demoStore : StateStore :=
  ⟨fun r => if r = 0 then some AgentState.default else Option.none, 1⟩

/-! ### Claim theorems -/

/-- C1: for every tool-marked method and every input on which the underlying
method returns a result, if the audit-log append step fails, the wrapping
produced by the `@tool` decorator swallows that failure and still returns the
underlying method's result unchanged, and no exception from the logging step
reaches the caller (the wrapper's outcome is the `ok` result, never an
error). -/
theorem tool_wrapper_swallows_logging_failure
    (toolName now : String)
    (func : UniversalAgent → List PyVal → List (String × PyVal) →
      Except String (PyVal × UniversalAgent))
    (self : UniversalAgent) (args : List PyVal) (kwargs : List (String × PyVal))
    (log : List String) (res : PyVal × UniversalAgent)
    (h : func self args kwargs = Except.ok res) :
    toolWrapper toolName func ⟨now, true⟩ self args kwargs log = (Except.ok res, log) := by
  simp [toolWrapper, h]

theorem tool_wrapper_swallows_logging_failure_witness :
    toolWrapper "analyze_code" demoOkFunc ⟨"2025-01-01T00:00:00", true⟩ demoAgent [] [] []
      = (Except.ok (PyVal.dict [("status", PyVal.str "ok")], demoAgent), []) :=
  tool_wrapper_swallows_logging_failure "analyze_code" "2025-01-01T00:00:00" demoOkFunc
    demoAgent [] [] [] (PyVal.dict [("status", PyVal.str "ok")], demoAgent) rfl

/-- C2: the wrapped method's outcome is exactly the outcome of the original
unwrapped method on the same input (for every environment), and each
successful call in an environment where the append succeeds appends exactly
one line to the action log. -/
theorem tool_wrapper_transparent_and_logs_once
    (toolName now : String)
    (func : UniversalAgent → List PyVal → List (String × PyVal) →
      Except String (PyVal × UniversalAgent))
    (self : UniversalAgent) (args : List PyVal) (kwargs : List (String × PyVal))
    (log : List String) :
    (∀ env : LogEnv,
       (toolWrapper toolName func env self args kwargs log).1 = func self args kwargs) ∧
    (∀ res, func self args kwargs = Except.ok res →
       (toolWrapper toolName func ⟨now, false⟩ self args kwargs log).2
         = log ++ [actionLogLine now res.2.agent_id toolName args kwargs] ∧
       (toolWrapper toolName func ⟨now, false⟩ self args kwargs log).2.length
         = log.length + 1) := by
  constructor
  · intro env
    cases h : func self args kwargs with
    | error e => simp [toolWrapper, h]
    | ok res =>
      cases he : env.appendFails <;> simp [toolWrapper, h, he]
  · intro res h
    constructor
    · simp [toolWrapper, h]
    · simp [toolWrapper, h]

theorem tool_wrapper_transparent_and_logs_once_witness :
    (toolWrapper "analyze_code" demoOkFunc ⟨"2025-01-01T00:00:00", false⟩
        demoAgent [] [] []).2.length = ([] : List String).length + 1 :=
  ((tool_wrapper_transparent_and_logs_once "analyze_code" "2025-01-01T00:00:00" demoOkFunc
      demoAgent [] [] []).2 (PyVal.dict [("status", PyVal.str "ok")], demoAgent) rfl).2

/-- C3: for every tool-marked method and every input on which the underlying
method raises, the wrapper appends no action-log line and propagates that
same exception unchanged to the caller (in every logging environment). -/
theorem tool_wrapper_propagates_exception
    (toolName : String) (env : LogEnv)
    (func : UniversalAgent → List PyVal → List (String × PyVal) →
      Except String (PyVal × UniversalAgent))
    (self : UniversalAgent) (args : List PyVal) (kwargs : List (String × PyVal))
    (log : List String) (e : String)
    (h : func self args kwargs = Except.error e) :
    toolWrapper toolName func env self args kwargs log = (Except.error e, log) := by
  simp [toolWrapper, h]

theorem tool_wrapper_propagates_exception_witness :
    toolWrapper "analyze_code" demoRaisingFunc ⟨"2025-01-01T00:00:00", false⟩
        demoAgent [] [] []
      = (Except.error "invalid input", []) :=
  tool_wrapper_propagates_exception "analyze_code" ⟨"2025-01-01T00:00:00", false⟩
    demoRaisingFunc demoAgent [] [] [] "invalid input" rfl

/-- C8: each successful tool invocation (with the append succeeding) appends
the single line `- <timestamp> | <agent_id>.<tool_name>: {"args": "...",
"kwargs": {...}}`, where the rendering of the positional arguments is
truncated to at most 120 characters and the kwargs component depends only on
each keyword argument's name and runtime type name, never on its value. -/
theorem action_log_line_format
    (toolName now : String)
    (func : UniversalAgent → List PyVal → List (String × PyVal) →
      Except String (PyVal × UniversalAgent))
    (self : UniversalAgent) (args : List PyVal) (kwargs : List (String × PyVal))
    (log : List String) (res : PyVal × UniversalAgent)
    (h : func self args kwargs = Except.ok res) :
    ((toolWrapper toolName func ⟨now, false⟩ self args kwargs log).2
       = log ++ ["- " ++ now ++ " | " ++ res.2.agent_id ++ "." ++ toolName ++
           ": \x7b\"args\": \"" ++ pyTruncate (pyTupleRepr args) 120 ++
           "\", \"kwargs\": " ++
           renderStrPairs (kwargs.map (fun p => (p.1, p.2.typeName))) ++ "\x7d"]) ∧
    (pyTruncate (pyTupleRepr args) 120).length ≤ 120 ∧
    (∀ kwargs2 : List (String × PyVal),
       kwargs.map Prod.fst = kwargs2.map Prod.fst →
       kwargs.map (fun p => p.2.typeName) = kwargs2.map (fun p => p.2.typeName) →
       actionLogLine now res.2.agent_id toolName args kwargs
         = actionLogLine now res.2.agent_id toolName args kwargs2) := by
  refine ⟨?_, ?_, ?_⟩
  · simp [toolWrapper, h, actionLogLine, kwargsTypesJson]
  · have hlen : (pyTruncate (pyTupleRepr args) 120).length
        = ((pyTupleRepr args).data.take 120).length := rfl
    rw [hlen, List.length_take]
    exact Nat.min_le_left 120 _
  · intro kwargs2 h1 h2
    simp [actionLogLine, kwargsTypesJson, kwargs_types_map_eq kwargs kwargs2 h1 h2]

theorem action_log_line_format_witness :
    (pyTruncate (pyTupleRepr [PyVal.str "hello"]) 120).length ≤ 120 :=
  (action_log_line_format "analyze_code" "2025-01-01T00:00:00" demoOkFunc demoAgent
      [PyVal.str "hello"] [] [] (PyVal.dict [("status", PyVal.str "ok")], demoAgent)
      rfl).2.1

/-- C4: `update_state` never mutates the previously current `AgentState`
object: in the heap view, a reader holding the prior reference observes the
same contents after the call, because `model_copy` allocates a fresh object
and the agent merely repoints its `state` attribute. -/
theorem update_state_preserves_old_snapshot
    (a : AgentH) (st : StateStore) (kwargs : List (String × PyVal)) (old : AgentState)
    (hWF : st.WF) (h : st.mem a.stateRef = some old) :
    ((update_stateH a st kwargs).2).mem a.stateRef = some old := by
  have hlt : a.stateRef < st.next := by
    by_contra hge
    push_neg at hge
    rw [hWF a.stateRef hge] at h
    simp at h
  simp only [update_stateH, h, StateStore.alloc]
  rw [if_neg (by omega)]

theorem update_state_preserves_old_snapshot_witness :
    ((update_stateH ⟨"demo-1", 0⟩ demoStore [("status", PyVal.str "busy")]).2).mem 0
      = some AgentState.default :=
  update_state_preserves_old_snapshot ⟨"demo-1", 0⟩ demoStore
    [("status", PyVal.str "busy")] AgentState.default
    (by
      intro r hr
      have hr2 : 1 ≤ r := hr
      show (if r = 0 then some AgentState.default else Option.none) = Option.none
      rw [if_neg (by omega)])
    rfl

/-- C5: `update_state` returns a new state equal to the prior state with
exactly the supplied fields overridden (a field named in the kwargs takes the
supplied value; every unnamed field keeps its prior value, as observed
through `get_state`), and installs that returned value as the agent's current
state; in particular the spec's scenario on a freshly constructed agent
yields `status="busy"`, `current_task="T1"` and defaults elsewhere. -/
theorem update_state_sparse_override :
    (∀ (a : UniversalAgent) (kw : List (String × PyVal)),
       (a.update_state kw).2 = (a.update_state kw).1.state ∧
       (∀ f ∈ stateFieldNames, ∀ v, kw.lookup f = some v →
          ((a.update_state kw).1.get_state).lookup f = some v) ∧
       (∀ f ∈ stateFieldNames, kw.lookup f = Option.none →
          ((a.update_state kw).1.get_state).lookup f = (a.get_state).lookup f)) ∧
    ((mkUniversalAgent "demo-1" "Test role" "model-x" Option.none).update_state
        [("status", PyVal.str "busy"), ("current_task", PyVal.str "T1")]).1.get_state
      = [("status", PyVal.str "busy"), ("current_task", PyVal.str "T1"),
         ("resource_utilization", PyVal.dict []), ("dependencies", PyVal.list []),
         ("performance_metrics", PyVal.dict [])] := by
  constructor
  · intro a kw
    refine ⟨rfl, ?_, ?_⟩
    · intro f hf v hv
      simp only [stateFieldNames, List.mem_cons, List.not_mem_nil, or_false] at hf
      rcases hf with rfl | rfl | rfl | rfl | rfl
      · have hL : ((a.update_state kw).1.get_state).lookup "status"
            = some ((kw.lookup "status").getD a.state.status) := rfl
        rw [hL, hv]; rfl
      · have hL : ((a.update_state kw).1.get_state).lookup "current_task"
            = some ((kw.lookup "current_task").getD a.state.current_task) := rfl
        rw [hL, hv]; rfl
      · have hL : ((a.update_state kw).1.get_state).lookup "resource_utilization"
            = some ((kw.lookup "resource_utilization").getD a.state.resource_utilization) := rfl
        rw [hL, hv]; rfl
      · have hL : ((a.update_state kw).1.get_state).lookup "dependencies"
            = some ((kw.lookup "dependencies").getD a.state.dependencies) := rfl
        rw [hL, hv]; rfl
      · have hL : ((a.update_state kw).1.get_state).lookup "performance_metrics"
            = some ((kw.lookup "performance_metrics").getD a.state.performance_metrics) := rfl
        rw [hL, hv]; rfl
    · intro f hf hv
      simp only [stateFieldNames, List.mem_cons, List.not_mem_nil, or_false] at hf
      rcases hf with rfl | rfl | rfl | rfl | rfl
      · have hL : ((a.update_state kw).1.get_state).lookup "status"
            = some ((kw.lookup "status").getD a.state.status) := rfl
        have hR : (a.get_state).lookup "status" = some a.state.status := rfl
        rw [hL, hR, hv]; rfl
      · have hL : ((a.update_state kw).1.get_state).lookup "current_task"
            = some ((kw.lookup "current_task").getD a.state.current_task) := rfl
        have hR : (a.get_state).lookup "current_task" = some a.state.current_task := rfl
        rw [hL, hR, hv]; rfl
      · have hL : ((a.update_state kw).1.get_state).lookup "resource_utilization"
            = some ((kw.lookup "resource_utilization").getD a.state.resource_utilization) := rfl
        have hR : (a.get_state).lookup "resource_utilization"
            = some a.state.resource_utilization := rfl
        rw [hL, hR, hv]; rfl
      · have hL : ((a.update_state kw).1.get_state).lookup "dependencies"
            = some ((kw.lookup "dependencies").getD a.state.dependencies) := rfl
        have hR : (a.get_state).lookup "dependencies" = some a.state.dependencies := rfl
        rw [hL, hR, hv]; rfl
      · have hL : ((a.update_state kw).1.get_state).lookup "performance_metrics"
            = some ((kw.lookup "performance_metrics").getD a.state.performance_metrics) := rfl
        have hR : (a.get_state).lookup "performance_metrics"
            = some a.state.performance_metrics := rfl
        rw [hL, hR, hv]; rfl
  · rfl

theorem update_state_sparse_override_witness :
    ((demoAgent.update_state [("status", PyVal.str "busy")]).1.get_state).lookup "status"
      = some (PyVal.str "busy") :=
  (update_state_sparse_override.1 demoAgent [("status", PyVal.str "busy")]).2.1
    "status" (by simp [stateFieldNames]) (PyVal.str "busy") rfl

/-- C10: `update_state` performs no validation of the supplied values: for
every value `v`, including any value outside the five declared `Status` enum
members, `update_state(status=v)` succeeds (it is a total operation in this
embedding, mirroring Pydantic's non-validating `model_copy`), the resulting
state carries `v` verbatim, and `get_state` reports it. -/
theorem update_state_no_validation
    (a : UniversalAgent) (v : PyVal) (h : isStatusVal v = false) :
    ((a.update_state [("status", v)]).1.state.status = v) ∧
    (((a.update_state [("status", v)]).1.get_state).lookup "status" = some v) :=
  ⟨rfl, rfl⟩

theorem update_state_no_validation_witness :
    isStatusVal (PyVal.str "definitely-not-a-status") = false ∧
    ((demoAgent.update_state [("status", PyVal.str "definitely-not-a-status")]).1.state.status
      = PyVal.str "definitely-not-a-status") :=
  ⟨rfl, (update_state_no_validation demoAgent (PyVal.str "definitely-not-a-status") rfl).1⟩

/-- C6: the introspection query returns exactly the agent's members that are
callable, not underscore-prefixed, and tool-flagged; a variant with zero
tool-marked members yields the empty list rather than failing. -/
theorem tool_methods_exactly_flagged :
    (∀ (c : AgentClassDecl) (m : Member),
        m ∈ tool_methods c ↔
          m ∈ c.members ∧ startsWithUnderscore m.name = false ∧
            m.callable = true ∧ m.isTool = true) ∧
    (∀ c : AgentClassDecl, (∀ m ∈ c.members, m.isTool = false) → tool_methods c = []) := by
  constructor
  · intro c m
    simp only [tool_methods, List.mem_filter, mem_sortMembers]
    constructor
    · rintro ⟨hm, hp⟩
      simp only [Bool.and_eq_true, Bool.not_eq_true'] at hp
      exact ⟨hm, hp.1.1, hp.1.2, hp.2⟩
    · rintro ⟨hm, h1, h2, h3⟩
      refine ⟨hm, ?_⟩
      simp [h1, h2, h3]
  · intro c hnone
    rw [tool_methods, List.filter_eq_nil_iff]
    intro m hm
    have hmem := (mem_sortMembers m c.members).mp hm
    simp [hnone m hmem]

theorem tool_methods_exactly_flagged_witness :
    tool_methods universalAgentClass = [] :=
  tool_methods_exactly_flagged.2 universalAgentClass (by decide)

/-- C7 counterexample: for `DocumentationAgent` the introspection query does
not enumerate the tool methods in class declaration order — `dir()` sorts the
attribute names, so the result is in lexicographic order, which differs from
the declaration order of this variant. -/
theorem tool_methods_order_counterexample :
    (tool_methods documentationAgentClass).map Member.name
      = ["generate_agents_overview", "generate_comprehensive_overview",
         "get_gcp_api_documentation_info", "summarize_action_logs"] ∧
    (declaredToolMembers documentationAgentClass).map Member.name
      = ["generate_agents_overview", "summarize_action_logs",
         "get_gcp_api_documentation_info", "generate_comprehensive_overview"] ∧
    (tool_methods documentationAgentClass).map Member.name
      ≠ (declaredToolMembers documentationAgentClass).map Member.name := by
  refine ⟨rfl, rfl, ?_⟩
  decide

/-- C7 (amended): the list returned by the introspection query enumerates the
tool-marked methods in ascending lexicographic order of their names (the
sorted order `dir()` yields), which is deterministic for a fixed attribute
table. -/
theorem tool_methods_sorted_by_name (c : AgentClassDecl) :
    (tool_methods c).Pairwise (fun x y => strLe x.name y.name = true) :=
  (pairwise_sortMembers c.members).filter _

/-- C9: `send_message` returns a message whose sender is the agent's id and
whose recipient, type and payload are the supplied arguments, with priority
defaulting to medium, `requires_response` defaulting to false and deadline
defaulting to none; the `message_id` is freshly generated, non-empty, and
distinct from the id of the next call's message; the agent is returned
untouched (no transport, no state change) and exactly one informational log
entry is emitted. -/
theorem send_message_constructs_and_returns
    (a : UniversalAgent) (w : World) (now recipient : String) (mt : MessageType)
    (payload : List (String × PyVal)) :
    ((send_message_default a w now recipient mt payload).1.sender = a.agent_id) ∧
    ((send_message_default a w now recipient mt payload).1.recipient = recipient) ∧
    ((send_message_default a w now recipient mt payload).1.message_type = mt) ∧
    ((send_message_default a w now recipient mt payload).1.payload = payload) ∧
    ((send_message_default a w now recipient mt payload).1.priority = Priority.medium) ∧
    ((send_message_default a w now recipient mt payload).1.requires_response = false) ∧
    ((send_message_default a w now recipient mt payload).1.deadline = Option.none) ∧
    ((send_message_default a w now recipient mt payload).1.timestamp = now) ∧
    ((send_message_default a w now recipient mt payload).1.message_id ≠ "") ∧
    ((send_message_default a ((send_message_default a w now recipient mt payload).2.1)
        now recipient mt payload).1.message_id
      ≠ (send_message_default a w now recipient mt payload).1.message_id) ∧
    ((send_message_default a w now recipient mt payload).2.2 = a) ∧
    ((send_message_default a w now recipient mt payload).2.1.infoLog
      = w.infoLog ++ [⟨recipient, mt, Priority.medium, payload⟩]) := by
  refine ⟨rfl, rfl, rfl, rfl, rfl, rfl, rfl, rfl, uuidString_ne_empty _, ?_, rfl, rfl⟩
  intro hEq
  have hinj := uuidString_injective hEq
  have hc : (send_message_default a w now recipient mt payload).2.1.uuidCounter
      = w.uuidCounter + 1 := rfl
  rw [hc] at hinj
  omega

theorem send_message_constructs_and_returns_witness :
    (send_message_default demoAgent ⟨0, []⟩ "2025-01-01T00:00:00" "agent-2"
        MessageType.request []).1.sender = "demo-1" :=
  (send_message_constructs_and_returns demoAgent ⟨0, []⟩ "2025-01-01T00:00:00" "agent-2"
      MessageType.request []).1
